import Mathlib

/-!
Verification development for the rbkc-parking-to-ics service (src/app.py).

The file shallowly embeds the pure core of `app.py`:
datetime parsing (`strptime` with the `%d/%m/%Y` format, `datetime.fromisoformat`,
`_parse_iso_utc`), the table-row extractor of `parse_html_to_events_from_url`,
the script-data extractor `parse_timetable` (the regex anchor search plus the
record loop), and the two request handlers `serve_calendar` and `serve_tomcal`.

External collaborators (the `requests` HTTP client, BeautifulSoup, `json.loads`
and the `ics` serializer) are modelled at their interface boundary: handlers take
the fetch operation as a function parameter and additionally return the list of
upstream fetches they performed, BeautifulSoup output is a pre-located table of
rows of stripped cell texts, `json.loads` is a function parameter producing a
JSON value, and serialization is an uninterpreted stand-in whose output no
theorem inspects.  Python exceptions are modelled with `Except`: a handler whose
result is `Except.error` is a handler out of which the exception propagated.
-/

namespace App

/-- Python exception values that the relevant code paths can raise. -/
inductive PyErr where
  | valueError (msg : String)
  | keyError (key : String)
  | typeError (msg : String)
  | attributeError (msg : String)
deriving DecidableEq

/-- Whitespace as recognized both by Python `str.strip` and by the regex
class backslash-s (restricted to ASCII, the only characters the pages use). -/
def isPyWs (c : Char) : Bool :=
  c = ' ' || c = '\t' || c = '\n' || c = '\r' || c = '\x0b' || c = '\x0c'

/-- Python `str.strip()`: drop leading and trailing whitespace. -/
def pyStrip (s : String) : String :=
  String.mk (((s.data.dropWhile isPyWs).reverse.dropWhile isPyWs).reverse)

/-- Python `s.endswith "Z"`. -/
def endsWithZ (s : String) : Bool :=
  match s.data.getLast? with
  | some c => c = 'Z'
  | none => false

/-- Python `s.replace "Z" "+00:00"` (replaces every occurrence). -/
def replaceZ (cs : List Char) : List Char :=
  cs.foldr (fun c acc => if c = 'Z' then '+' :: '0' :: '0' :: ':' :: '0' :: '0' :: acc else c :: acc) []

/-- Numeric value of a decimal digit character. -/
def digitVal (c : Char) : Nat := c.toNat - 48

/-- Read exactly `n` decimal digits, accumulating their value. -/
def takeDigitsAux : Nat → Nat → List Char → Option (Nat × List Char)
  | 0, acc, cs => some (acc, cs)
  | Nat.succ n, acc, c :: cs =>
      if c.isDigit then takeDigitsAux n (acc * 10 + digitVal c) cs else none
  | Nat.succ _, _, [] => none

/-- Read exactly `n` decimal digits. -/
def takeDigits (n : Nat) (cs : List Char) : Option (Nat × List Char) :=
  takeDigitsAux n 0 cs

/-- Consume one expected character. -/
def expectChar (c : Char) : List Char → Option (List Char)
  | x :: r => if x = c then some r else none
  | [] => none

/-- Gregorian leap-year test, as in the Python `datetime` module. -/
def isLeap (y : Nat) : Bool :=
  (y % 4 = 0 && y % 100 ≠ 0) || y % 400 = 0

/-- Number of days in a month, as validated by the `datetime` constructor. -/
def daysInMonth (y m : Nat) : Nat :=
  if m = 2 then (if isLeap y then 29 else 28)
  else if m = 4 || m = 6 || m = 9 || m = 11 then 30
  else 31

/-- Calendar date, the result of `datetime.strptime(s, "%d/%m/%Y").date()`. -/
structure Date where
  year : Nat
  month : Nat
  day : Nat
deriving DecidableEq

/-- Final step of the `%d/%m/%Y` parse: exactly four year digits (the regex for
the Y directive), end of input, then the `datetime` range validation. -/
def parseYearDMY (d m : Nat) (cs : List Char) : Option Date := do
  let (y, r) ← takeDigits 4 cs
  if r = [] ∧ 1 ≤ y ∧ 1 ≤ m ∧ m ≤ 12 ∧ 1 ≤ d ∧ d ≤ daysInMonth y m then
    some ⟨y, m, d⟩
  else none

/-- Month of the `%d/%m/%Y` parse: the m directive matches two digits valued
01..12 or a single digit 1..9, followed by the literal slash. -/
def parseMonthDMY (d : Nat) (cs : List Char) : Option Date :=
  let two :=
    match cs with
    | a :: b :: '/' :: rest =>
        if a.isDigit && b.isDigit && 1 ≤ digitVal a * 10 + digitVal b
            && digitVal a * 10 + digitVal b ≤ 12 then
          parseYearDMY d (digitVal a * 10 + digitVal b) rest
        else none
    | _ => none
  match two with
  | some r => some r
  | none =>
      match cs with
      | a :: '/' :: rest =>
          if a.isDigit && 1 ≤ digitVal a then parseYearDMY d (digitVal a) rest else none
      | _ => none

/-- Day of the `%d/%m/%Y` parse: the d directive matches two digits valued
01..31 or a single digit 1..9, followed by the literal slash. -/
def parseDayDMY (cs : List Char) : Option Date :=
  let two :=
    match cs with
    | a :: b :: '/' :: rest =>
        if a.isDigit && b.isDigit && 1 ≤ digitVal a * 10 + digitVal b
            && digitVal a * 10 + digitVal b ≤ 31 then
          parseMonthDMY (digitVal a * 10 + digitVal b) rest
        else none
    | _ => none
  match two with
  | some r => some r
  | none =>
      match cs with
      | a :: '/' :: rest =>
          if a.isDigit && 1 ≤ digitVal a then parseMonthDMY (digitVal a) rest else none
      | _ => none

/-- Model of `datetime.strptime(s, "%d/%m/%Y").date()` from `app.py` lines
57-58: day and month accept one or two digits with the usual strptime digit
patterns, the year is exactly four digits, the whole string must be consumed,
and the resulting date must be a valid calendar date. -/
def parseDMY (s : String) : Option Date :=
  parseDayDMY s.data

/-- Python `datetime` value as used by `_parse_iso_utc`: wall-clock fields plus
an optional UTC offset in minutes (`offMin = none` models a naive datetime,
`tzinfo is None`). -/
structure Dt where
  year : Nat
  month : Nat
  day : Nat
  hour : Nat
  minute : Nat
  second : Nat
  offMin : Option Int
deriving DecidableEq

/-- Range validation performed by the `datetime` constructor. -/
def mkDt (y mo d h mi s : Nat) (off : Option Int) : Option Dt :=
  if 1 ≤ y && 1 ≤ mo && mo ≤ 12 && 1 ≤ d && d ≤ daysInMonth y mo
      && h ≤ 23 && mi ≤ 59 && s ≤ 59 then
    some ⟨y, mo, d, h, mi, s, off⟩
  else none

/-- Time-of-day component HH:MM with optional :SS. -/
def parseHMS (cs : List Char) : Option (Nat × Nat × Nat × List Char) := do
  let (h, r1) ← takeDigits 2 cs
  let r2 ← expectChar ':' r1
  let (mi, r3) ← takeDigits 2 r2
  match r3 with
  | ':' :: r4 => do
      let (s, r5) ← takeDigits 2 r4
      some (h, mi, s, r5)
  | _ => some (h, mi, 0, r3)

/-- Offset magnitude HH:MM ending the string; a `timedelta` offset must be
strictly less than a day. -/
def offHM (cs : List Char) : Option Int := do
  let (oh, r1) ← takeDigits 2 cs
  let r2 ← expectChar ':' r1
  let (om, r3) ← takeDigits 2 r2
  if r3 = [] && oh ≤ 23 && om ≤ 59 then some ((oh * 60 + om : Nat) : Int) else none

/-- Optional signed offset at the end of the string. -/
def parseOffsetEnd (cs : List Char) : Option (Option Int) :=
  match cs with
  | [] => some none
  | '+' :: r => (offHM r).map (fun v => some v)
  | '-' :: r => (offHM r).map (fun v => some (-v))
  | _ => none

/-- Model of `datetime.fromisoformat` on the shapes this service receives:
`YYYY-MM-DD`, optionally a `T` or space separator and `HH:MM[:SS]`, optionally
a trailing `+HH:MM` or `-HH:MM` offset (fractional seconds are not modelled).
Returns `none` where Python raises `ValueError`. -/
def fromisoformat (s : String) : Option Dt := do
  let (y, r1) ← takeDigits 4 s.data
  let r2 ← expectChar '-' r1
  let (mo, r3) ← takeDigits 2 r2
  let r4 ← expectChar '-' r3
  let (d, r5) ← takeDigits 2 r4
  match r5 with
  | [] => mkDt y mo d 0 0 0 none
  | sep :: r6 =>
      if sep = 'T' || sep = ' ' then do
        let (h, mi, sec, r7) ← parseHMS r6
        let off ← parseOffsetEnd r7
        mkDt y mo d h mi sec off
      else none

/-- Days between a Gregorian civil date and 1970-01-01 (standard civil-calendar
day-number computation, as the ordinal arithmetic of `datetime` performs). -/
def daysFromCivil (y m d : Nat) : Int :=
  let yi : Int := if m ≤ 2 then (y : Int) - 1 else (y : Int)
  let era : Int := (if 0 ≤ yi then yi else yi - 399) / 400
  let yoe : Int := yi - era * 400
  let mp : Int := ((m : Int) + 9) % 12
  let doy : Int := (153 * mp + 2) / 5 + (d : Int) - 1
  let doe : Int := yoe * 365 + yoe / 4 - yoe / 100 + doy
  era * 146097 + doe - 719468

/-- Inverse of `daysFromCivil`. -/
def civilFromDays (z0 : Int) : Nat × Nat × Nat :=
  let z : Int := z0 + 719468
  let era : Int := (if 0 ≤ z then z else z - 146096) / 146097
  let doe : Int := z - era * 146097
  let yoe : Int := (doe - doe / 1460 + doe / 36524 - doe / 146096) / 365
  let y : Int := yoe + era * 400
  let doy : Int := doe - (365 * yoe + yoe / 4 - yoe / 100)
  let mp : Int := (5 * doy + 2) / 153
  let d : Int := doy - (153 * mp + 2) / 5 + 1
  let m : Int := mp + (if mp < 10 then 3 else -9)
  ((y + (if m ≤ 2 then 1 else 0)).toNat, m.toNat, d.toNat)

/-- Seconds since the epoch of the instant a (possibly offset-carrying)
datetime denotes; a naive datetime is read at offset zero. -/
def toEpochSecs (dt : Dt) : Int :=
  daysFromCivil dt.year dt.month dt.day * 86400
    + ((dt.hour * 3600 + dt.minute * 60 + dt.second : Nat) : Int)
    - dt.offMin.getD 0 * 60

/-- Python `dt.astimezone(timezone.utc)` on an aware datetime: same instant,
wall clock recomputed in UTC. -/
def astimezoneUtc (dt : Dt) : Dt :=
  let t := toEpochSecs dt
  let days := t / 86400
  let rem := (t % 86400).toNat
  let c := civilFromDays days
  ⟨c.1, c.2.1, c.2.2, rem / 3600, rem % 3600 / 60, rem % 60, some 0⟩

/-- Model of `_parse_iso_utc` from `app.py` lines 107-116: strip the input,
rewrite a trailing `Z` (via the Python replace-all), parse with `fromisoformat`,
then attach UTC to a naive result or convert an aware result to UTC. Returns
`none` where Python raises `ValueError`. -/
def _parse_iso_utc (s : String) : Option Dt :=
  let s1 := pyStrip s
  let s2 := if endsWithZ s1 then String.mk (replaceZ s1.data) else s1
  match fromisoformat s2 with
  | none => none
  | some dt =>
      match dt.offMin with
      | none => some { dt with offMin := some 0 }
      | some _ => some (astimezoneUtc dt)

/-- JSON values as produced by `json.loads` (numbers restricted to integers,
which is all the timetable data carries; `null` is Python `None`). -/
inductive Json where
  | null
  | bool (b : Bool)
  | num (n : Int)
  | str (s : String)
  | arr (l : List Json)
  | obj (l : List (String × Json))

/-- Python truthiness of a JSON-decoded value. -/
def jTruthy : Json → Bool
  | .null => false
  | .bool b => b
  | .num n => n != 0
  | .str s => s != ""
  | .arr l => !l.isEmpty
  | .obj l => !l.isEmpty

/-- Python `entry.get(k)` on a decoded JSON object: a stored JSON `null` is the
Python value `None`, indistinguishable from an absent key. -/
def pyGet (kvs : List (String × Json)) (k : String) : Option Json :=
  match kvs.lookup k with
  | some Json.null => none
  | some v => some v
  | none => none

/-- Python `entry[k]`: `KeyError` when the key is absent. -/
def pyIndex (kvs : List (String × Json)) (k : String) : Except PyErr Json :=
  match kvs.lookup k with
  | some v => Except.ok v
  | none => Except.error (PyErr.keyError k)

/-- Python `a or dflt`. -/
def pyOrJ (a : Option Json) (dflt : Json) : Json :=
  match a with
  | some v => if jTruthy v then v else dflt
  | none => dflt

/-- Application of `_parse_iso_utc` to a decoded JSON value: a non-string has
no `strip` method (`AttributeError`), an unparsable string raises `ValueError`
inside `fromisoformat`. -/
def pyParseIsoJ (v : Json) : Except PyErr Dt :=
  match v with
  | .str s =>
      match _parse_iso_utc s with
      | some dt => Except.ok dt
      | none => Except.error (PyErr.valueError "Invalid isoformat string")
  | _ => Except.error (PyErr.attributeError "strip")

/-- Whether the time of an event is a day-precision date (table source) or an aware
instant (timetable source). -/
inductive EventTime where
  | date (d : Date)
  | instant (dt : Dt)

/-- The `ics.Event` attributes the code assigns.  `name` and `location` hold
whatever decoded value the code stored (the table source always stores
strings); `description` is a string because `" | ".join` only accepts
strings. -/
structure Event where
  name : Option Json := none
  begin : Option EventTime := none
  end_ : Option EventTime := none
  allDay : Bool := false
  description : Option String := none
  location : Option Json := none

/-- Description built from the `staffName` part list (`app.py` lines 137-141):
a truthy `staffName` must be a string or `" | ".join` raises `TypeError`. -/
def descOf (kvs : List (String × Json)) : Except PyErr (Option String) :=
  match pyGet kvs "staffName" with
  | some v =>
      if jTruthy v then
        match v with
        | .str s => Except.ok (some s)
        | _ => Except.error (PyErr.typeError "sequence item 0: expected str instance")
      else Except.ok none
  | none => Except.ok none

/-- Body of the `for entry in data.get("timetables", [])` loop of
`parse_timetable` (`app.py` lines 131-142), for one entry.  A non-object entry
has no `get` method. -/
def processEntry (entry : Json) : Except PyErr Event :=
  match entry with
  | .obj kvs =>
      let nameJ := pyOrJ (pyGet kvs "name") (Json.str "Lesson")
      match pyIndex kvs "startTime" with
      | Except.error e => Except.error e
      | Except.ok sv =>
          match pyParseIsoJ sv with
          | Except.error e => Except.error e
          | Except.ok sdt =>
              match pyIndex kvs "endTime" with
              | Except.error e => Except.error e
              | Except.ok tv =>
                  match pyParseIsoJ tv with
                  | Except.error e => Except.error e
                  | Except.ok edt =>
                      match descOf kvs with
                      | Except.error e => Except.error e
                      | Except.ok desc =>
                          Except.ok
                            { name := some nameJ
                              begin := some (EventTime.instant sdt)
                              end_ := some (EventTime.instant edt)
                              description := desc
                              location := pyGet kvs "location" }
  | _ => Except.error (PyErr.attributeError "get")

/-- The calendar document: per the CalendarDocument contract of the spec the builder
(the external `ics` library) is an insertion-ordered collection of events. -/
structure Calendar where
  events : List Event

/-- The whole entry loop: events accumulate in order; the first raising entry
aborts the loop and the exception propagates. -/
def addEntries : List Json → List Event → Except PyErr (List Event)
  | [], acc => Except.ok acc
  | e :: rest, acc =>
      match processEntry e with
      | Except.error err => Except.error err
      | Except.ok ev => addEntries rest (acc ++ [ev])

/-- Python `data.get("timetables", [])`: default to an empty list when absent;
a non-dict has no `get` method. -/
def getTimetables (data : Json) : Except PyErr Json :=
  match data with
  | .obj kvs => Except.ok ((kvs.lookup "timetables").getD (Json.arr []))
  | _ => Except.error (PyErr.attributeError "get")

/-- Python `for entry in v`: lists iterate elements, dicts iterate keys,
strings iterate characters, other values raise `TypeError`. -/
def iterEntries : Json → Except PyErr (List Json)
  | .arr l => Except.ok l
  | .obj kvs => Except.ok (kvs.map (fun kv => Json.str kv.1))
  | .str s => Except.ok (s.data.map (fun c => Json.str (String.mk [c])))
  | _ => Except.error (PyErr.typeError "not iterable")

/-- Consume an expected literal character sequence. -/
def stripLit : List Char → List Char → Option (List Char)
  | [], cs => some cs
  | p :: ps, c :: cs => if c = p then stripLit ps cs else none
  | _ :: _, [] => none

/-- Drop regex whitespace. -/
def dropWs (cs : List Char) : List Char := cs.dropWhile isPyWs

/-- Lazy body scan of the anchor regex: the group closes at the first brace
immediately followed by a semicolon (DOTALL, so any character may intervene). -/
def scanBody : List Char → List Char → Option (List Char)
  | '}' :: ';' :: _, acc => some acc.reverse
  | c :: rest, acc => scanBody rest (c :: acc)
  | [], _ => none

/-- One attempted match of the anchor regex at a fixed position: literal `var`,
at least one whitespace, literal `timetableData`, optional whitespace, `=`,
optional whitespace, then the brace-delimited lazy group ended by `};`. -/
def tryMatchAt (cs : List Char) : Option (List Char) :=
  match stripLit "var".data cs with
  | none => none
  | some r1 =>
      match r1 with
      | [] => none
      | c :: r2 =>
          if isPyWs c then
            match stripLit "timetableData".data (dropWs r2) with
            | none => none
            | some r4 =>
                match dropWs r4 with
                | '=' :: r6 =>
                    match dropWs r6 with
                    | '{' :: r8 => (scanBody r8 []).map (fun body => '{' :: (body ++ ['}']))
                    | _ => none
                | _ => none
          else none

/-- Leftmost-match search, as `re.search` performs. -/
def findTimetableDataAux : List Char → Option (List Char)
  | [] => none
  | c :: rest =>
      match tryMatchAt (c :: rest) with
      | some g => some g
      | none => findTimetableDataAux rest

/-- Model of the anchor search of `app.py` line 124: the first capture of the
pattern `var`, whitespace, `timetableData`, `=`, braced group, `;` with
DOTALL, or `none` when the pattern does not occur. -/
def findTimetableData (js : String) : Option String :=
  (findTimetableDataAux js.data).map String.mk

/-- Model of `parse_timetable` (`app.py` lines 119-143).  `loads` stands for
the external `json.loads` applied to the captured group; it returns the decoded
value or the decode error it raises. -/
def parse_timetable (loads : String → Except PyErr Json) (js : String) :
    Except PyErr Calendar :=
  match findTimetableData js with
  | none => Except.error (PyErr.valueError "timetableData not found in JS")
  | some g =>
      match loads g with
      | Except.error e => Except.error e
      | Except.ok data =>
          match getTimetables data with
          | Except.error e => Except.error e
          | Except.ok tv =>
              match iterEntries tv with
              | Except.error e => Except.error e
              | Except.ok entries =>
                  match addEntries entries [] with
                  | Except.error e => Except.error e
                  | Except.ok evs => Except.ok ⟨evs⟩

/-- Whether an `Except` computation ended in a raised exception. -/
def isError {ε α : Type} : Except ε α → Bool
  | Except.error _ => true
  | Except.ok _ => false

/-- Output of BeautifulSoup at the boundary the extractor consumes: the first
`table` with class `tableborder` when present, as its list of `tr` rows, each
row the list of the `get_text(strip=True)` texts of its `td` cells. -/
structure HtmlDoc where
  table : Option (List (List String))

/-- Body of the row loop of `parse_html_to_events_from_url` (`app.py` lines
42-70) for one row of already-extracted cell texts: rows with fewer than 7
cells and rows whose cell 4 or 5 fails the `%d/%m/%Y` parse yield nothing;
otherwise one all-day event with the positional field mapping. -/
def processRow (cells : List String) : Option Event :=
  if cells.length < 7 then none
  else
    let street_name := cells.getD 0 ""
    let location := cells.getD 1 ""
    let suspension_type := cells.getD 2 ""
    let suspension_reason := cells.getD 3 ""
    let from_date := cells.getD 4 ""
    let to_date := cells.getD 5 ""
    match parseDMY from_date, parseDMY to_date with
    | some start, some stop =>
        some
          { name := some (Json.str (suspension_type ++ " - " ++ street_name))
            begin := some (EventTime.date start)
            end_ := some (EventTime.date stop)
            allDay := true
            description := some suspension_reason
            location := some (Json.str location) }
    | _, _ => none

/-- Extraction stage of `parse_html_to_events_from_url` (`app.py` lines 32-72):
no matching table yields the empty list; otherwise the header row is dropped
and each remaining row is processed by `processRow`. -/
def parse_html_to_events (doc : HtmlDoc) : List Event :=
  match doc.table with
  | none => []
  | some rows => (rows.drop 1).filterMap processRow

/-- Failed upstream response: HTTP status code and body text. -/
structure HttpFailure where
  status : Nat
  text : String
deriving DecidableEq

/-- Model of `parse_html_to_events_from_url` (`app.py` lines 18-72).  The
`fetcher` parameter stands for `requests.get` composed with BeautifulSoup: it
returns the parsed document, or the non-ok status and body on which the code
raises `ValueError` with the formatted message. -/
def parse_html_to_events_from_url (fetcher : String → Except HttpFailure HtmlDoc)
    (url : String) : Except String (List Event) :=
  match fetcher url with
  | Except.error f =>
      Except.error ("HTTP Error " ++ toString f.status ++ ": " ++ f.text)
  | Except.ok doc => Except.ok (parse_html_to_events doc)

/-- Stand-in for the external `ics` serializer (`calendar.serialize()`); no
claim inspects its output. -/
def calendarSerialize (cal : Calendar) : String :=
  "BEGIN:VCALENDAR" ++ String.join (cal.events.map (fun _ => ":VEVENT")) ++ ":END"

/-- Flask response as the handlers build it: status, body, and the mimetype
when one is passed explicitly. -/
structure Response where
  status : Nat
  body : String
  mimetype : Option String
deriving DecidableEq

/-- Query parameters of a `/calendar.ics` request:
`request.args.getlist("street")` (empty list when the parameter is absent). -/
structure CalReq where
  street : List String

/-- Query parameters of a `/tomcal.ics` request: `request.args.get` for `l`
and `p` (`none` when absent). -/
structure TomReq where
  l : Option String
  p : Option String

/-- The upstream URL built on `app.py` line 89. -/
def calUrl (street dateStr : String) : String :=
  "https://www.rbkc.gov.uk/parking/suspensionresults.asp?Street=" ++ street
    ++ "&Date=" ++ dateStr

/-- The street loop of `serve_calendar` (`app.py` lines 87-104): events from
each street page accumulate; the first `ValueError` becomes a 500 response
with the exception text; success serializes the calendar.  The second component
records the upstream URLs actually fetched. -/
def serveStreets (fetcher : String → Except HttpFailure HtmlDoc) (dateStr : String) :
    List String → List Event → List String → Response × List String
  | [], acc, log =>
      ({ status := 200, body := calendarSerialize ⟨acc⟩,
         mimetype := some "text/calendar" }, log)
  | s :: rest, acc, log =>
      match parse_html_to_events_from_url fetcher (calUrl s dateStr) with
      | Except.error e =>
          ({ status := 500, body := e, mimetype := none }, log ++ [calUrl s dateStr])
      | Except.ok evs =>
          serveStreets fetcher dateStr rest (acc ++ evs) (log ++ [calUrl s dateStr])

/-- Model of `serve_calendar` (`app.py` lines 74-104).  `dateStr` is the
already-formatted yesterday date (the `datetime.now()` effect), `fetcher` the
outbound HTTP boundary; the second component lists the upstream fetches
performed. -/
def serve_calendar (fetcher : String → Except HttpFailure HtmlDoc)
    (dateStr : String) (req : CalReq) : Response × List String :=
  match req.street with
  | [] => ({ status := 400, body := "Missing \x27street\x27 parameter(s)",
             mimetype := none }, [])
  | s :: rest => serveStreets fetcher dateStr (s :: rest) [] []

/-- Model of `serve_tomcal` (`app.py` lines 164-175).  `fetchTT` stands for
`fetch_timetable` (the authenticated upstream fetch, which may raise), `loads`
for `json.loads`.  The handler catches nothing, so a raised exception is an
`Except.error` result; the second component lists the credential pairs with
which a fetch was attempted. -/
def serve_tomcal (fetchTT : String → String → Except PyErr String)
    (loads : String → Except PyErr Json) (req : TomReq) :
    Except PyErr Response × List (String × String) :=
  match req.l, req.p with
  | some login, some password =>
      if login == "" || password == "" then
        (Except.ok { status := 400, body := "Missing login or password",
                     mimetype := none }, [])
      else
        match fetchTT login password with
        | Except.error e => (Except.error e, [(login, password)])
        | Except.ok html =>
            match parse_timetable loads html with
            | Except.error e => (Except.error e, [(login, password)])
            | Except.ok cal =>
                (Except.ok { status := 200, body := calendarSerialize cal,
                             mimetype := some "text/calendar" }, [(login, password)])
  | _, _ =>
      (Except.ok { status := 400, body := "Missing login or password",
                   mimetype := none }, [])

/-- Concrete suspensions-table row used to exercise the row extractor. -/
def rowFixture : List String :=
  ["Portobello Road", "North side", "Suspension", "Filming",
   "01/02/2024", "03/02/2024", "Ref 123"]

/-- Event the row extractor produces from `rowFixture`. -/
def rowEventFixture : Event :=
  { name := some (Json.str "Suspension - Portobello Road")
    begin := some (EventTime.date ⟨2024, 2, 1⟩)
    end_ := some (EventTime.date ⟨2024, 2, 3⟩)
    allDay := true
    description := some "Filming"
    location := some (Json.str "North side") }

/-- Concrete script text containing the anchor pattern. -/
def tomcalJsFixture : String :=
  "var timetableData = \x7b\x22timetables\x22: 1\x7d;"

/-- The group the anchor regex captures from `tomcalJsFixture`. -/
def tomcalGroupFixture : String := "\x7b\x22timetables\x22: 1\x7d"

/-- Concrete well-formed timetable record. -/
def timetableEntryFixture : Json :=
  Json.obj [("name", Json.str "Maths"),
            ("startTime", Json.str "2024-03-01T09:00:00Z"),
            ("endTime", Json.str "2024-03-01T10:00:00+01:00")]

/-- Decoded timetable object holding one record. -/
def timetableDataFixture : Json :=
  Json.obj [("timetables", Json.arr [timetableEntryFixture])]

/-- Stand-in `json.loads` decoding the fixture group. -/
def timetableLoadsFixture : String → Except PyErr Json :=
  fun _ => Except.ok timetableDataFixture

/-- Event the entry loop produces from `timetableEntryFixture` (both instants
land on 09:00 UTC). -/
def timetableEventFixture : Event :=
  { name := some (Json.str "Maths")
    begin := some (EventTime.instant ⟨2024, 3, 1, 9, 0, 0, some 0⟩)
    end_ := some (EventTime.instant ⟨2024, 3, 1, 9, 0, 0, some 0⟩)
    allDay := false
    description := none
    location := none }

/-- Timetable record with no `startTime` key. -/
def missingStartEntryFixture : Json := Json.obj [("name", Json.str "Maths")]

/-- Stand-in `json.loads` decoding to an object whose single record lacks
`startTime`. -/
def missingStartLoadsFixture : String → Except PyErr Json :=
  fun _ => Except.ok (Json.obj [("timetables", Json.arr [missingStartEntryFixture])])

/-- Successful row processing: a row of at least 7 cells whose cells 4 and 5
parse as dates yields exactly the positionally mapped all-day event. -/
theorem processRow_fields (cells : List String) (d1 d2 : Date)
    (hlen : 7 ≤ cells.length)
    (h4 : parseDMY (cells.getD 4 "") = some d1)
    (h5 : parseDMY (cells.getD 5 "") = some d2) :
    processRow cells = some
      { name := some (Json.str (cells.getD 2 "" ++ " - " ++ cells.getD 0 ""))
        begin := some (EventTime.date d1)
        end_ := some (EventTime.date d2)
        allDay := true
        description := some (cells.getD 3 "")
        location := some (Json.str (cells.getD 1 "")) } := by
  unfold processRow
  rw [if_neg (by omega)]
  simp only [h4, h5]

/-- C1: a table row with at least 7 cells whose cells 4 and 5 parse as
DD/MM/YYYY dates produces exactly one all-day event from the extractor, with
title cell2-dash-cell0, description cell 3, location cell 1, and the two parsed
dates as start and end. -/
theorem c1_row_extractor (rows pre post : List (List String)) (row : List String)
    (d1 d2 : Date)
    (hsplit : rows.drop 1 = pre ++ row :: post)
    (hlen : 7 ≤ row.length)
    (h4 : parseDMY (row.getD 4 "") = some d1)
    (h5 : parseDMY (row.getD 5 "") = some d2) :
    parse_html_to_events ⟨some rows⟩ =
      pre.filterMap processRow ++
        ({ name := some (Json.str (row.getD 2 "" ++ " - " ++ row.getD 0 ""))
           begin := some (EventTime.date d1)
           end_ := some (EventTime.date d2)
           allDay := true
           description := some (row.getD 3 "")
           location := some (Json.str (row.getD 1 "")) } : Event)
        :: post.filterMap processRow := by
  show (rows.drop 1).filterMap processRow = _
  rw [hsplit, List.filterMap_append,
    List.filterMap_cons_some (processRow_fields row d1 d2 hlen h4 h5)]

/-- Witness for C1 at a concrete two-row table. -/
theorem c1_row_extractor_witness :
    parse_html_to_events
        ⟨some [["Street", "Location", "Type", "Reason", "From", "To", "Ref"],
               rowFixture]⟩ = [rowEventFixture] :=
  c1_row_extractor _ [] [] rowFixture ⟨2024, 2, 1⟩ ⟨2024, 2, 3⟩ rfl (by decide) rfl rfl

/-- C5: a row with fewer than 7 cells, or whose cell 4 or cell 5 fails the
DD/MM/YYYY parse, produces no event; such a row is dropped while the rows
around it are still processed, and the extractor (being a total function into
a plain list) surfaces no error. -/
theorem c5_row_skipping :
    (∀ cells : List String, cells.length < 7 → processRow cells = none) ∧
    (∀ cells : List String, 7 ≤ cells.length →
      parseDMY (cells.getD 4 "") = none ∨ parseDMY (cells.getD 5 "") = none →
      processRow cells = none) ∧
    (∀ (pre post : List (List String)) (row : List String), processRow row = none →
      (pre ++ row :: post).filterMap processRow =
        pre.filterMap processRow ++ post.filterMap processRow) := by
  refine ⟨fun cells h => ?_, fun cells h hd => ?_, fun pre post row h => ?_⟩
  · unfold processRow
    rw [if_pos h]
  · unfold processRow
    rw [if_neg (by omega)]
    rcases hd with h4 | h5
    · cases h5 : parseDMY (cells.getD 5 "") <;> simp only [h4, h5]
    · cases h4 : parseDMY (cells.getD 4 "") <;> simp only [h4, h5]
  · rw [List.filterMap_append, List.filterMap_cons_none h]

/-- Witness for C5 at a one-cell row. -/
theorem c5_row_skipping_witness : processRow ["Portobello Road"] = none :=
  c5_row_skipping.1 ["Portobello Road"] (by decide)

/-- C9: a parsed document with no table of the marker class yields the empty
event list from the extractor, and through the handler a 200 response carrying
the serialized empty calendar, not an error. -/
theorem c9_absent_table_empty :
    (∀ doc : HtmlDoc, doc.table = none → parse_html_to_events doc = []) ∧
    (∀ (doc : HtmlDoc) (dateStr street : String), doc.table = none →
      (serve_calendar (fun _ => Except.ok doc) dateStr ⟨[street]⟩).1 =
        { status := 200, body := calendarSerialize ⟨[]⟩,
          mimetype := some "text/calendar" }) := by
  constructor
  · intro doc h
    unfold parse_html_to_events
    rw [h]
  · intro doc dateStr street h
    show (serveStreets _ _ [street] [] []).1 = _
    unfold serveStreets parse_html_to_events_from_url
    simp only [parse_html_to_events, h]
    rfl

/-- Witness for C9 at the table-less document. -/
theorem c9_absent_table_empty_witness : parse_html_to_events ⟨none⟩ = [] :=
  c9_absent_table_empty.1 ⟨none⟩ rfl

/-- C6: script text in which the anchor pattern does not occur makes
`parse_timetable` raise the data-block-not-found `ValueError` (so it never
returns a calendar, empty or otherwise). -/
theorem c6_anchor_absent_error (loads : String → Except PyErr Json) (js : String)
    (h : findTimetableData js = none) :
    parse_timetable loads js =
      Except.error (PyErr.valueError "timetableData not found in JS") := by
  unfold parse_timetable
  rw [h]

/-- Witness for C6 at anchor-free script text. -/
theorem c6_anchor_absent_error_witness :
    parse_timetable (fun _ => Except.error (PyErr.valueError "unreached"))
        "window.other = 1; var schedule = \x7b\x7d;" =
      Except.error (PyErr.valueError "timetableData not found in JS") :=
  c6_anchor_absent_error _ _ rfl

/-- Entry loop on records that all process successfully: events accumulate in
order behind the accumulator. -/
theorem addEntries_of_forall2 {entries : List Json} {evs : List Event}
    (h : List.Forall₂ (fun e ev => processEntry e = Except.ok ev) entries evs) :
    ∀ acc : List Event, addEntries entries acc = Except.ok (acc ++ evs) := by
  induction h with
  | nil => intro acc; simp [addEntries]
  | cons h1 _ ih =>
      intro acc
      unfold addEntries
      simp only [h1]
      rw [ih]
      simp

/-- C2: when the anchor pattern matches and the decoded object carries a
`timetables` array of records that each process successfully, `parse_timetable`
returns a calendar holding exactly the events of those records, one per record, in
array order. -/
theorem c2_timetable_count_order (loads : String → Except PyErr Json)
    (js g : String) (data : Json) (entries : List Json) (evs : List Event)
    (hfind : findTimetableData js = some g)
    (hload : loads g = Except.ok data)
    (hget : getTimetables data = Except.ok (Json.arr entries))
    (hall : List.Forall₂ (fun e ev => processEntry e = Except.ok ev) entries evs) :
    parse_timetable loads js = Except.ok ⟨evs⟩ ∧ evs.length = entries.length := by
  constructor
  · unfold parse_timetable
    simp only [hfind, hload, hget,
      show iterEntries (Json.arr entries) = Except.ok entries from rfl,
      addEntries_of_forall2 hall, List.nil_append]
  · exact hall.length_eq.symm

/-- Witness for C2 at a one-record fixture. -/
theorem c2_timetable_count_order_witness :
    parse_timetable timetableLoadsFixture tomcalJsFixture =
        Except.ok ⟨[timetableEventFixture]⟩ ∧
      ([timetableEventFixture] : List Event).length =
        ([timetableEntryFixture] : List Json).length :=
  c2_timetable_count_order timetableLoadsFixture tomcalJsFixture tomcalGroupFixture
    timetableDataFixture [timetableEntryFixture] [timetableEventFixture]
    rfl rfl rfl (List.Forall₂.cons rfl List.Forall₂.nil)

/-- Record object lacking `startTime` or `endTime`: its processing raises. -/
theorem processEntry_missing_req (kvs : List (String × Json))
    (h : kvs.lookup "startTime" = none ∨ kvs.lookup "endTime" = none) :
    isError (processEntry (Json.obj kvs)) = true := by
  rcases h with h | h
  · simp only [processEntry, pyIndex, h]
    rfl
  · cases hs : kvs.lookup "startTime" with
    | none =>
        simp only [processEntry, pyIndex, hs]
        rfl
    | some v =>
        cases hp : pyParseIsoJ v with
        | error e =>
            simp only [processEntry, pyIndex, hs, hp]
            rfl
        | ok dt =>
            simp only [processEntry, pyIndex, hs, hp, h]
            rfl

/-- Entry loop containing a raising record: the whole loop raises. -/
theorem addEntries_mem_error :
    ∀ (entries : List Json) (acc : List Event) (e : Json), e ∈ entries →
      isError (processEntry e) = true → isError (addEntries entries acc) = true := by
  intro entries
  induction entries with
  | nil => intro acc e hmem; cases hmem
  | cons a l ih =>
      intro acc e hmem herr
      unfold addEntries
      cases ha : processEntry a with
      | error err => rfl
      | ok ev =>
          rcases List.mem_cons.mp hmem with heq | hmem'
          · subst heq
            rw [ha] at herr
            simp [isError] at herr
          · exact ih _ e hmem' herr

/-- C7: a `timetables` record missing the required `startTime` or `endTime`
key makes the whole `parse_timetable` call raise (the request fails); the rest
of the records are not silently kept. -/
theorem c7_missing_required_field (loads : String → Except PyErr Json)
    (js g : String) (data : Json) (entries : List Json)
    (kvs : List (String × Json))
    (hfind : findTimetableData js = some g)
    (hload : loads g = Except.ok data)
    (hget : getTimetables data = Except.ok (Json.arr entries))
    (hmem : Json.obj kvs ∈ entries)
    (hmiss : kvs.lookup "startTime" = none ∨ kvs.lookup "endTime" = none) :
    isError (parse_timetable loads js) = true := by
  unfold parse_timetable
  simp only [hfind, hload, hget,
    show iterEntries (Json.arr entries) = Except.ok entries from rfl]
  have h2 := addEntries_mem_error entries [] _ hmem (processEntry_missing_req kvs hmiss)
  cases ha : addEntries entries [] with
  | error e => rfl
  | ok evs =>
      rw [ha] at h2
      simp [isError] at h2

/-- Witness for C7 at a record without `startTime`. -/
theorem c7_missing_required_field_witness :
    isError (parse_timetable missingStartLoadsFixture tomcalJsFixture) = true :=
  c7_missing_required_field missingStartLoadsFixture tomcalJsFixture
    tomcalGroupFixture (Json.obj [("timetables", Json.arr [missingStartEntryFixture])])
    [missingStartEntryFixture] [("name", Json.str "Maths")]
    rfl rfl rfl (List.Mem.head _) (Or.inl rfl)

/-- C4: the instant-mode normalizer maps the Z-suffixed and the +00:00 forms of
2024-03-01T09:00:00 to the identical UTC instant; every successful result
carries the UTC offset; and a parsed input with neither offset nor Z suffix
keeps its wall clock unchanged, reinterpreted as UTC. -/
theorem c4_iso_utc_normalization :
    (_parse_iso_utc "2024-03-01T09:00:00Z" =
        _parse_iso_utc "2024-03-01T09:00:00+00:00" ∧
      _parse_iso_utc "2024-03-01T09:00:00Z" = some ⟨2024, 3, 1, 9, 0, 0, some 0⟩) ∧
    (∀ (s : String) (dt : Dt), _parse_iso_utc s = some dt → dt.offMin = some 0) ∧
    (∀ (s : String) (dt0 : Dt), fromisoformat (pyStrip s) = some dt0 →
      dt0.offMin = none → endsWithZ (pyStrip s) = false →
      _parse_iso_utc s = some { dt0 with offMin := some 0 }) := by
  refine ⟨⟨rfl, rfl⟩, ?_, ?_⟩
  · intro s dt h
    simp only [_parse_iso_utc] at h
    split at h
    · exact absurd h (by simp)
    · split at h
      · injection h with h
        subst h
        rfl
      · injection h with h
        subst h
        rfl
  · intro s dt0 hf hoff hz
    unfold _parse_iso_utc
    simp only [hz, Bool.false_eq_true, if_false, hf, hoff]

/-- Witness for C4 at an offset-free, Z-free timestamp. -/
theorem c4_iso_utc_normalization_witness :
    _parse_iso_utc "2024-03-01T09:00:00" = some ⟨2024, 3, 1, 9, 0, 0, some 0⟩ :=
  c4_iso_utc_normalization.2.2 "2024-03-01T09:00:00"
    ⟨2024, 3, 1, 9, 0, 0, none⟩ rfl rfl rfl

/-- C8: a `/calendar.ics` request with no `street` parameter and a
`/tomcal.ics` request with `l` or `p` absent return status 400 with the
exact plain-text body of the endpoint, and no upstream fetch is performed (the
fetch log stays empty for every possible fetcher). -/
theorem c8_missing_parameter_400 :
    (∀ (fetcher : String → Except HttpFailure HtmlDoc) (dateStr : String),
      serve_calendar fetcher dateStr ⟨[]⟩ =
        ({ status := 400, body := "Missing \x27street\x27 parameter(s)",
           mimetype := none }, [])) ∧
    (∀ (fetchTT : String → String → Except PyErr String)
        (loads : String → Except PyErr Json) (p : Option String),
      serve_tomcal fetchTT loads ⟨none, p⟩ =
        (Except.ok { status := 400, body := "Missing login or password",
                     mimetype := none }, [])) ∧
    (∀ (fetchTT : String → String → Except PyErr String)
        (loads : String → Except PyErr Json) (l : Option String),
      serve_tomcal fetchTT loads ⟨l, none⟩ =
        (Except.ok { status := 400, body := "Missing login or password",
                     mimetype := none }, [])) := by
  refine ⟨fun _ _ => rfl, fun _ _ p => ?_, fun _ _ l => ?_⟩
  · cases p <;> rfl
  · cases l <;> rfl

/-- C10: the two endpoints treat an empty-valued parameter differently - a
`/tomcal.ics` request with `l` or `p` present but empty gets the 400 response
with no fetch, while a `/calendar.ics` request with an empty-valued `street`
is not answered 400 and the upstream fetch for the empty street is performed. -/
theorem c10_empty_value_divergence :
    (∀ (fetchTT : String → String → Except PyErr String)
        (loads : String → Except PyErr Json) (p : Option String),
      serve_tomcal fetchTT loads ⟨some "", p⟩ =
        (Except.ok { status := 400, body := "Missing login or password",
                     mimetype := none }, [])) ∧
    (∀ (fetchTT : String → String → Except PyErr String)
        (loads : String → Except PyErr Json) (l : String),
      serve_tomcal fetchTT loads ⟨some l, some ""⟩ =
        (Except.ok { status := 400, body := "Missing login or password",
                     mimetype := none }, [])) ∧
    (∀ (fetcher : String → Except HttpFailure HtmlDoc) (dateStr : String),
      (serve_calendar fetcher dateStr ⟨[""]⟩).2 = [calUrl "" dateStr] ∧
      (serve_calendar fetcher dateStr ⟨[""]⟩).1.status ≠ 400) := by
  refine ⟨fun _ _ p => ?_, fun _ _ l => ?_, fun fetcher dateStr => ?_⟩
  · cases p <;> rfl
  · cases hl : l == "" <;> simp [serve_tomcal, hl]
  · cases hf : fetcher (calUrl "" dateStr) <;>
      simp [serve_calendar, serveStreets, parse_html_to_events_from_url, hf]

/-- C3 (counterexample): a request-level upstream failure on `/tomcal.ics`
does not become an HTTP error response - the exception leaves the handler
unhandled (the result of the handler is the raised error, not a `Response`). -/
theorem c3_counterexample_tomcal_escape :
    (serve_tomcal (fun _ _ => Except.error (PyErr.valueError "HTTP down"))
        (fun _ => Except.error (PyErr.valueError "unreached"))
        ⟨some "user", some "pw"⟩).1 =
      Except.error (PyErr.valueError "HTTP down") := rfl

/-- C3 (amended): on `/calendar.ics` every request-level failure is mapped by
the handler itself to an HTTP error response with a plain-text body - a missing
`street` parameter to 400 with the exact body and no fetch, an upstream fetch
failure to 500 with a body carrying the upstream status and body; on
`/tomcal.ics` only the missing-credentials check produces an in-handler
response (400, with no fetch), while with non-empty credentials both an
upstream fetch failure and a structural-extraction failure (the fetch succeeds
and `parse_timetable` raises, e.g. on an absent anchor or malformed data)
propagate out of the handler as the raised exception instead of becoming a
response. -/
theorem c3_amended_error_propagation :
    (∀ (fetcher : String → Except HttpFailure HtmlDoc) (dateStr : String),
      serve_calendar fetcher dateStr ⟨[]⟩ =
        ({ status := 400, body := "Missing \x27street\x27 parameter(s)",
           mimetype := none }, [])) ∧
    (∀ (fetcher : String → Except HttpFailure HtmlDoc) (dateStr s : String)
        (f : HttpFailure),
      fetcher (calUrl s dateStr) = Except.error f →
      serve_calendar fetcher dateStr ⟨[s]⟩ =
        ({ status := 500,
           body := "HTTP Error " ++ toString f.status ++ ": " ++ f.text,
           mimetype := none }, [calUrl s dateStr])) ∧
    (∀ (fetchTT : String → String → Except PyErr String)
        (loads : String → Except PyErr Json) (p : Option String),
      serve_tomcal fetchTT loads ⟨none, p⟩ =
        (Except.ok { status := 400, body := "Missing login or password",
                     mimetype := none }, [])) ∧
    (∀ (fetchTT : String → String → Except PyErr String)
        (loads : String → Except PyErr Json) (l : Option String),
      serve_tomcal fetchTT loads ⟨l, none⟩ =
        (Except.ok { status := 400, body := "Missing login or password",
                     mimetype := none }, [])) ∧
    (∀ (fetchTT : String → String → Except PyErr String)
        (loads : String → Except PyErr Json) (l p : String) (e : PyErr),
      (l == "") = false → (p == "") = false → fetchTT l p = Except.error e →
      (serve_tomcal fetchTT loads ⟨some l, some p⟩).1 = Except.error e) ∧
    (∀ (fetchTT : String → String → Except PyErr String)
        (loads : String → Except PyErr Json) (l p html : String) (e : PyErr),
      (l == "") = false → (p == "") = false → fetchTT l p = Except.ok html →
      parse_timetable loads html = Except.error e →
      (serve_tomcal fetchTT loads ⟨some l, some p⟩).1 = Except.error e) := by
  refine ⟨fun _ _ => rfl, ?_, fun _ _ p => ?_, fun _ _ l => ?_, ?_, ?_⟩
  · intro fetcher dateStr s f h
    unfold serve_calendar serveStreets parse_html_to_events_from_url
    simp [h]
  · cases p <;> rfl
  · cases l <;> rfl
  · intro fetchTT loads l p e hl hp hf
    simp [serve_tomcal, hl, hp, hf]
  · intro fetchTT loads l p html e hl hp hf hpt
    simp [serve_tomcal, hl, hp, hf, hpt]

/-- Witness for the amended C3: a concrete failing fetcher on `/calendar.ics`
and, on `/tomcal.ics`, a concrete successful fetch whose body lacks the anchor
so that the structural-extraction `ValueError` escapes the handler. -/
theorem c3_amended_error_propagation_witness :
    serve_calendar (fun _ => Except.error ⟨502, "bad gateway"⟩) "20240101"
        ⟨["Kings Road"]⟩ =
      ({ status := 500, body := "HTTP Error 502: bad gateway", mimetype := none },
       [calUrl "Kings Road" "20240101"]) ∧
    (serve_tomcal (fun _ _ => Except.ok "page without the data block")
        (fun _ => Except.error (PyErr.valueError "unreached"))
        ⟨some "user", some "pw"⟩).1 =
      Except.error (PyErr.valueError "timetableData not found in JS") :=
  ⟨c3_amended_error_propagation.2.1 _ "20240101" "Kings Road" ⟨502, "bad gateway"⟩ rfl,
   c3_amended_error_propagation.2.2.2.2.2 _ _ "user" "pw"
     "page without the data block" (PyErr.valueError "timetableData not found in JS")
     rfl rfl rfl rfl⟩
